import Mathlib

/-!
Shallow embedding of `src/slack-send.js` (slack-github-action).

The single exported function `slackSend(core)` is modelled as a pure
function from the environment variables (`Env`), the action inputs
(`Inputs`) and an oracle for all external collaborators (`World`:
file system, template renderer, JSON parser, chat API, webhook POST,
wall clock) to a `SendResult`: the ordered trace of externally visible
actions, the `core.setOutput` calls, and the `core.setFailed` detail.

JSON values are modelled by the inductive `Json` (numbers as `Int`,
which covers every numeric literal the claims mention); JavaScript
truthiness, object-literal spread and template-literal stringification
are modelled by `jsTruthy`, `jsSpread`/`objLit` and `jsTemplateStr`.
-/

namespace SlackAction

mutual

/-- JSON values as manipulated by the action (numbers restricted to
integers, which is all the claims exercise). Arrays and objects carry
their own sequence types so that every function on `Json` is plain
mutual structural recursion. -/
inductive Json where
  | null : Json
  | bool (b : Bool) : Json
  | num (n : Int) : Json
  | str (s : String) : Json
  | arr (elems : JsonArr) : Json
  | obj (fields : JsonObj) : Json

/-- A sequence of JSON array elements. -/
inductive JsonArr where
  | nil : JsonArr
  | cons (hd : Json) (tl : JsonArr) : JsonArr

/-- An ordered sequence of JSON object fields. -/
inductive JsonObj where
  | nil : JsonObj
  | cons (key : String) (val : Json) (tl : JsonObj) : JsonObj

end

/-- The elements of an array as a `List`. -/
def JsonArr.toList : JsonArr → List Json
  | JsonArr.nil => []
  | JsonArr.cons h t => h :: JsonArr.toList t

/-- An array from a `List` of elements. -/
def JsonArr.ofList : List Json → JsonArr
  | [] => JsonArr.nil
  | h :: t => JsonArr.cons h (JsonArr.ofList t)

/-- The fields of an object as a `List` of pairs. -/
def JsonObj.toList : JsonObj → List (String × Json)
  | JsonObj.nil => []
  | JsonObj.cons k v t => (k, v) :: JsonObj.toList t

/-- An object from a `List` of fields. -/
def JsonObj.ofList : List (String × Json) → JsonObj
  | [] => JsonObj.nil
  | (k, v) :: t => JsonObj.cons k v (JsonObj.ofList t)

/-- A JSON array literal. -/
def Json.mkArr (xs : List Json) : Json := Json.arr (JsonArr.ofList xs)

/-- A JSON object literal. -/
def Json.mkObj (kvs : List (String × Json)) : Json := Json.obj (JsonObj.ofList kvs)

/-- JavaScript truthiness of a JSON value. -/
def jsTruthy : Json → Bool
  | Json.null => false
  | Json.bool b => b
  | Json.num n => n != 0
  | Json.str s => s != ""
  | Json.arr _ => true
  | Json.obj _ => true

/-- Truthiness of a variable that is either an unset/empty string
(`none`) or a parsed JSON value. -/
def jsTruthyOpt : Option Json → Bool
  | none => false
  | some j => jsTruthy j

/-- Truthiness of an optional string (JS `undefined` or a string). -/
def jsTruthyStrOpt : Option String → Bool
  | none => false
  | some s => s != ""

/-- Enumerate list elements with stringified indices, as JS object
spread does for arrays. -/
def enumPairs (i : Nat) : List Json → List (String × Json)
  | [] => []
  | v :: vs => (toString i, v) :: enumPairs (i + 1) vs

/-- Enumerate the characters of a string with stringified indices, as
JS object spread does for strings. -/
def charPairs (i : Nat) : List Char → List (String × Json)
  | [] => []
  | c :: cs => (toString i, Json.str (String.singleton c)) :: charPairs (i + 1) cs

/-- Own enumerable properties contributed by `...v` in a JS object
literal. -/
def jsSpread : Json → List (String × Json)
  | Json.obj kvs => kvs.toList
  | Json.arr xs => enumPairs 0 xs.toList
  | Json.str s => charPairs 0 s.data
  | _ => []

/-- `...(payload || \x7b\x7d)`: spread of the payload variable, with a
falsy payload replaced by the empty object. -/
def spreadOf : Option Json → List (String × Json)
  | none => []
  | some j => if jsTruthy j then jsSpread j else []

/-- Assign key `k` to value `v` in a JS object represented as an
ordered association list: overwrite in place if present, else append. -/
def objInsert : List (String × Json) → String → Json → List (String × Json)
  | [], k, v => [(k, v)]
  | (k0, v0) :: rest, k, v =>
    if k0 = k then (k0, v) :: rest else (k0, v0) :: objInsert rest k v

/-- Build a JS object from a sequence of key/value assignments in
order (later assignments overwrite earlier ones in place), as a JS
object literal with spreads does. -/
def objLit (l : List (String × Json)) : List (String × Json) :=
  l.foldl (fun acc kv => objInsert acc kv.1 kv.2) []

/-- A value the `flat` library recurses into: a non-empty object or
array (empty ones and primitives are kept as leaves). -/
def isNonEmptyContainer : Json → Bool
  | Json.obj (JsonObj.cons _ _ _) => true
  | Json.arr (JsonArr.cons _ _) => true
  | _ => false

mutual

/-- `flat`'s recursive step over a container value. -/
def flattenJson (pre : String) (j : Json) : List (String × Json) :=
  match j with
  | Json.obj kvs => flattenObj pre kvs
  | Json.arr xs => flattenArr pre 0 xs
  | _ => []
termination_by structural j

/-- `flat`'s iteration over the keys of an object: recurse into
non-empty containers under the dot-joined key, emit a leaf
otherwise. -/
def flattenObj (pre : String) (kvs : JsonObj) : List (String × Json) :=
  match kvs with
  | JsonObj.nil => []
  | JsonObj.cons k v rest =>
    (let nk := if pre = "" then k else pre ++ "." ++ k
     if isNonEmptyContainer v then flattenJson nk v else [(nk, v)]) ++ flattenObj pre rest
termination_by structural kvs

/-- `flat`'s iteration over the stringified indices of an array, with
the same leaf/recurse split as for object keys. -/
def flattenArr (pre : String) (i : Nat) (xs : JsonArr) : List (String × Json) :=
  match xs with
  | JsonArr.nil => []
  | JsonArr.cons v rest =>
    (let nk := if pre = "" then toString i else pre ++ "." ++ toString i
     if isNonEmptyContainer v then flattenJson nk v else [(nk, v)]) ++ flattenArr pre (i + 1) rest
termination_by structural xs

end

/-- `flatten(payload)` from the `flat` npm package: dot-joined paths to
leaf values (non-empty objects and arrays are recursed into; empty
containers and primitives are leaves). -/
def flatten (j : Json) : List (String × Json) := flattenJson "" j

mutual

/-- JS template-literal stringification `` `${v}` ``: `null`, booleans
and numbers print canonically, strings pass through, plain objects
print `[object Object]`, arrays join their elements with commas. -/
def jsTemplateStr (j : Json) : String :=
  match j with
  | Json.null => "null"
  | Json.bool b => if b then "true" else "false"
  | Json.num n => toString n
  | Json.str s => s
  | Json.obj _ => "[object Object]"
  | Json.arr xs => jsArrStr xs
termination_by structural j

/-- JS `Array.prototype.toString`: elements joined by commas, a `null`
element rendering empty. -/
def jsArrStr (xs : JsonArr) : String :=
  match xs with
  | JsonArr.nil => ""
  | JsonArr.cons v rest =>
    (match v with
     | Json.null => ""
     | v' => jsTemplateStr v') ++
    (match rest with
     | JsonArr.nil => ""
     | _ => "," ++ jsArrStr rest)
termination_by structural xs

end

/-- JS `String.prototype.toUpperCase`, for the ASCII alphabet the
action's configuration values use. -/
def jsToUpperCase (s : String) : String := String.mk (s.data.map Char.toUpper)

/-- JS `String.prototype.split(',')` on a character list. -/
def splitCommaList : List Char → List (List Char)
  | [] => [[]]
  | c :: cs =>
    if c = ',' then [] :: splitCommaList cs
    else
      match splitCommaList cs with
      | [] => [[c]]
      | h :: t => (c :: h) :: t

/-- JS `channelIds.split(',')`. -/
def jsSplitComma (s : String) : List String := (splitCommaList s.data).map String.mk

/-- JS `String.prototype.trim` (whitespace here: space, tab, CR, LF,
which covers the separators channel lists use). -/
def jsTrim (s : String) : String :=
  String.mk (((s.data.dropWhile Char.isWhitespace).reverse.dropWhile Char.isWhitespace).reverse)

/-- `payload.replaceAll('$\x7b\x7b', '\x7b\x7b')` on a character list:
left-to-right, non-overlapping occurrences of the three-character
marker `$` `\x7b` `\x7b` lose their leading `$`. -/
def rewriteMarkers : List Char → List Char
  | '$' :: '\x7b' :: '\x7b' :: rest => '\x7b' :: '\x7b' :: rewriteMarkers rest
  | c :: rest => c :: rewriteMarkers rest
  | [] => []

/-- The marker rewrite applied to the payload file text. -/
def jsReplaceMarkers (s : String) : String := String.mk (rewriteMarkers s.data)

/-- The WORKFLOW_TRIGGER shaping: flatten the payload, collect the
result into a JS object, and stringify every value. -/
def workflowShape (p : Json) : Json :=
  Json.mkObj ((objLit (flatten p)).map (fun kv => (kv.1, Json.str (jsTemplateStr kv.2))))

/-- The fields of a JSON object (empty for non-objects). -/
def objFields : Json → List (String × Json)
  | Json.obj kvs => kvs.toList
  | _ => []

/-! ## Constants and error messages of `slack-send.js` -/

/-- `SLACK_WEBHOOK_TYPES.WORKFLOW_TRIGGER`. -/
def SLACK_WEBHOOK_TYPES.WORKFLOW_TRIGGER : String := "WORKFLOW_TRIGGER"

/-- `SLACK_WEBHOOK_TYPES.INCOMING_WEBHOOK`. -/
def SLACK_WEBHOOK_TYPES.INCOMING_WEBHOOK : String := "INCOMING_WEBHOOK"

/-- Message of the error thrown when neither credential is usable. -/
def configurationError : String := "Need to provide at least one botToken or webhookUrl"

/-- Message of the error thrown when the payload file cannot be
loaded (it names the path). -/
def payloadFileError (p : String) : String :=
  "The payload-file-path may be incorrect. Failed to load the file: " ++ p

/-- Message of the error thrown when the payload text is not valid
JSON. -/
def invalidPayloadError : String := "Need to provide valid JSON payload"

/-- Message of the error thrown when the channel id input is empty. -/
def emptyChannelError : String :=
  "Channel ID is required to run this action. An empty one has been provided"

/-- Message of the error thrown when there is neither message text nor
a truthy payload. -/
def emptyContentError : String :=
  "Missing message content, please input a valid payload or message to send. No Message has been send."

/-! ## State: environment, inputs, external world, observable result -/

/-- The environment variables the function reads (a missing variable is
`none`; the proxy variables are omitted, they only affect transport
plumbing that is invisible in the observable result). -/
structure Env where
  slackBotToken : Option String
  slackWebhookUrl : Option String
  slackWebhookType : Option String

/-- The action inputs (`core.getInput` returns `""` for an unset
input; `core.getBooleanInput` returns a boolean). -/
structure Inputs where
  payload : String
  payloadFilePath : String
  payloadFilePathParsed : Bool
  slackMessage : String
  channelId : String
  updateTs : String

/-- A response of `web.chat.update` / `web.chat.postMessage` as the
code inspects it. -/
structure SlackResponse where
  ok : Bool
  ts : Option String
  thread_ts : Option String
  channel : Option String

/-- The structured HTTP response attached to an axios error, when
present. -/
structure HttpResponse where
  data : Json

/-- An axios POST failure: optional structured response and a message
text. -/
structure AxiosError where
  response : Option HttpResponse
  message : String

/-- Oracle for every external collaborator of `slackSend`: the file
system, the template renderer (`markup.up` with the fixed run context),
`JSON.parse` (`none` means it throws), the GitHub event payload, the
chat API (result of the call for the i-th channel in input order),
the webhook POST, and the wall clock. -/
structure World where
  fileRead : String → Except String String
  renderTemplate : String → String
  parseJSON : String → Option Json
  githubPayload : Json
  chatResult : Nat → Except String SlackResponse
  webhookResult : Except AxiosError Unit
  timeString : String

/-- What `core.setFailed` received: an `Error`'s message text, or the
structured body `err.response.data` of a failed webhook POST. -/
inductive FailDetail where
  | errMsg (s : String) : FailDetail
  | respBody (b : Json) : FailDetail

/-- An externally visible action performed by the function, in order:
a payload-file read, a chat API call (carrying the fully assembled
request object), or a webhook POST (carrying the shaped body). -/
inductive Action where
  | fileRead (path : String) : Action
  | chatUpdate (req : Json) : Action
  | chatPost (req : Json) : Action
  | webhookPost (url : String) (body : Json) : Action

/-- The observable outcome of one invocation: the ordered action trace,
the `core.setOutput` calls (name, value), and the failure detail if
`core.setFailed` was called. -/
structure SendResult where
  actions : List Action
  outputs : List (String × Option String)
  failed : Option FailDetail

/-! ## The embedded program -/

/-- `botToken === undefined || botToken.length <= 0` (and the same
check for the webhook URL). -/
def jsUndefOrEmpty : Option String → Bool
  | none => true
  | some s => s.length ≤ 0

/-- `typeof v !== 'undefined' && v.length > 0`. -/
def definedNonEmpty : Option String → Bool
  | none => false
  | some s => 0 < s.length

/-- The `webhookType` variable: `WORKFLOW_TRIGGER` by default,
overridden by the uppercased `SLACK_WEBHOOK_TYPE` environment variable
when that is set and non-empty (truthy). -/
def selectWebhookType : Option String → String
  | none => SLACK_WEBHOOK_TYPES.WORKFLOW_TRIGGER
  | some s => if s ≠ "" then jsToUpperCase s else SLACK_WEBHOOK_TYPES.WORKFLOW_TRIGGER

/-- The file read performed during payload resolution, if any:
`if (payloadFilePath && !payload)`. -/
def resolveActions (inp : Inputs) : List Action :=
  if inp.payloadFilePath ≠ "" ∧ inp.payload = "" then
    [Action.fileRead inp.payloadFilePath]
  else []

/-- The payload text after the optional file read and template pass:
inline input as is; otherwise the file text, rewritten (every literal
`${{` becomes `{{`) and rendered when the
parsed-substitution flag is set. A read failure throws the
path-naming error. -/
def getFileText (inp : Inputs) (w : World) : Except String String :=
  if inp.payloadFilePath ≠ "" ∧ inp.payload = "" then
    match w.fileRead inp.payloadFilePath with
    | Except.error _ => Except.error (payloadFileError inp.payloadFilePath)
    | Except.ok content =>
      Except.ok (if inp.payloadFilePathParsed then
          w.renderTemplate (jsReplaceMarkers content)
        else content)
  else Except.ok inp.payload

/-- The resolved payload: `none` when the payload text is falsy
(empty), the parsed JSON value otherwise; a parse failure throws the
invalid-JSON error. -/
def resolvePayload (inp : Inputs) (w : World) : Except String (Option Json) :=
  match getFileText inp w with
  | Except.error e => Except.error e
  | Except.ok pstr =>
    if pstr ≠ "" then
      match w.parseJSON pstr with
      | some j => Except.ok (some j)
      | none => Except.error invalidPayloadError
    else Except.ok none

/-- The request object of `web.chat.update`:
`{ ts, channel: channelId.trim(), text: message, ...(payload || {}) }`. -/
def updateReq (ts ch message : String) (payload : Option Json) : Json :=
  Json.mkObj (objLit ([("ts", Json.str ts), ("channel", Json.str (jsTrim ch)),
    ("text", Json.str message)] ++ spreadOf payload))

/-- The request object of `web.chat.postMessage`:
`{ channel: channelId.trim(), text: message, ...(payload || {}) }`. -/
def postReq (ch message : String) (payload : Option Json) : Json :=
  Json.mkObj (objLit ([("channel", Json.str (jsTrim ch)),
    ("text", Json.str message)] ++ spreadOf payload))

/-- The chat calls issued by the fan-out over
`channelIds.split(',')`: one update per channel when `update-ts` is
truthy, one post per channel otherwise. -/
def chatActions (ts message : String) (payload : Option Json) (chans : List String) :
    List Action :=
  chans.map (fun ch =>
    if ts ≠ "" then Action.chatUpdate (updateReq ts ch message payload)
    else Action.chatPost (postReq ch message payload))

/-- The rejection `Promise.all` propagates, if any: the error of the
first failing chat call (model order: input order). -/
def firstChatError (w : World) (n : Nat) : Option String :=
  (List.range n).findSome? (fun i =>
    match w.chatResult i with
    | Except.error e => some e
    | Except.ok _ => none)

/-- The value of the `webResponse` variable after a fully successful
fan-out over `n` channels: the response recorded last (model order:
the last channel in input order). -/
def lastChatResponse (w : World) (n : Nat) : Option SlackResponse :=
  match w.chatResult (n - 1) with
  | Except.ok r => some r
  | Except.error _ => none

/-- How a transport branch ended: fall through to the time output,
throw an `Error` (caught by the outer handler), or `return` early
after `core.setFailed` (webhook POST failure). Each variant carries the
actions the branch performed and, for `done`, its outputs. -/
inductive BranchOut where
  | done (acts : List Action) (outs : List (String × Option String)) : BranchOut
  | thrown (acts : List Action) (msg : String) : BranchOut
  | returned (acts : List Action) (detail : FailDetail) : BranchOut

/-- The actions a branch performed, whatever its ending. -/
def branchActs : BranchOut → List Action
  | BranchOut.done a _ => a
  | BranchOut.thrown a _ => a
  | BranchOut.returned a _ => a

/-- The token-transport branch: empty-channel check on the raw input
string, content check (`message.length > 0 || payload`), fan-out, and
the `webResponse && webResponse.ok` output guard. -/
def tokenBranch (inp : Inputs) (w : World) (payload : Option Json) : BranchOut :=
  let message := inp.slackMessage
  let channelIds := inp.channelId
  if channelIds.length ≤ 0 then
    BranchOut.thrown [] emptyChannelError
  else if message.length > 0 ∨ jsTruthyOpt payload = true then
    let ts := inp.updateTs
    let chans := jsSplitComma channelIds
    let acts := chatActions ts message payload chans
    match firstChatError w chans.length with
    | some e => BranchOut.thrown acts e
    | none =>
      match lastChatResponse w chans.length with
      | some wr =>
        if wr.ok then
          BranchOut.done acts
            [("ts", wr.ts),
             ("thread_ts", if jsTruthyStrOpt wr.thread_ts then wr.thread_ts else wr.ts),
             ("channel_id", wr.channel)]
        else BranchOut.done acts []
      | none => BranchOut.done acts []
  else
    BranchOut.thrown [] emptyContentError

/-- `if (!payload) payload = github.context.payload` in the webhook
branch. -/
def effectiveWebhookPayload (payload : Option Json) (w : World) : Json :=
  match payload with
  | some j => if jsTruthy j then j else w.githubPayload
  | none => w.githubPayload

/-- The webhook-transport branch: default payload, WORKFLOW_TRIGGER
flattening, single POST, and the `err.response` failure split. -/
def webhookBranch (url webhookType : String) (w : World) (payload : Option Json) :
    BranchOut :=
  let p0 := effectiveWebhookPayload payload w
  let p1 := if webhookType = SLACK_WEBHOOK_TYPES.WORKFLOW_TRIGGER then workflowShape p0 else p0
  match w.webhookResult with
  | Except.ok _ => BranchOut.done [Action.webhookPost url p1] []
  | Except.error err =>
    BranchOut.returned [Action.webhookPost url p1]
      (match err.response with
       | some resp => FailDetail.respBody resp.data
       | none => FailDetail.errMsg err.message)

/-- The whole of `slackSend`: credential check, payload resolution,
transport dispatch, time output, and the outer try/catch that converts
a thrown `Error` into `core.setFailed`. -/
def slackSend (env : Env) (inp : Inputs) (w : World) : SendResult :=
  let webhookType := selectWebhookType env.slackWebhookType
  if jsUndefOrEmpty env.slackBotToken && jsUndefOrEmpty env.slackWebhookUrl then
    { actions := [], outputs := [], failed := some (FailDetail.errMsg configurationError) }
  else
    let racts := resolveActions inp
    match resolvePayload inp w with
    | Except.error e =>
      { actions := racts, outputs := [], failed := some (FailDetail.errMsg e) }
    | Except.ok payload =>
      let bo :=
        if definedNonEmpty env.slackBotToken then
          tokenBranch inp w payload
        else
          match env.slackWebhookUrl with
          | some url =>
            if 0 < url.length then webhookBranch url webhookType w payload
            else BranchOut.done [] []
          | none => BranchOut.done [] []
      match bo with
      | BranchOut.done acts outs =>
        { actions := racts ++ acts,
          outputs := outs ++ [("time", some w.timeString)],
          failed := none }
      | BranchOut.thrown acts msg =>
        { actions := racts ++ acts, outputs := [], failed := some (FailDetail.errMsg msg) }
      | BranchOut.returned acts d =>
        { actions := racts ++ acts, outputs := [], failed := some d }

/-! ## Supporting lemmas -/

theorem jsUndefOrEmpty_eq_not_definedNonEmpty (o : Option String) :
    jsUndefOrEmpty o = !definedNonEmpty o := by
  cases o with
  | none => rfl
  | some s =>
    simp only [jsUndefOrEmpty, definedNonEmpty]
    by_cases h : s.length = 0 <;> simp [h, Nat.le_zero, Nat.pos_iff_ne_zero]

/-- Dispatch of `slackSend` to the token branch. -/
theorem slackSend_token (env : Env) (inp : Inputs) (w : World) (p : Option Json)
    (htok : definedNonEmpty env.slackBotToken = true)
    (hres : resolvePayload inp w = Except.ok p) :
    slackSend env inp w =
      (match tokenBranch inp w p with
       | BranchOut.done acts outs =>
         { actions := resolveActions inp ++ acts,
           outputs := outs ++ [("time", some w.timeString)],
           failed := none }
       | BranchOut.thrown acts msg =>
         { actions := resolveActions inp ++ acts, outputs := [],
           failed := some (FailDetail.errMsg msg) }
       | BranchOut.returned acts d =>
         { actions := resolveActions inp ++ acts, outputs := [], failed := some d }) := by
  have hb : jsUndefOrEmpty env.slackBotToken = false := by
    rw [jsUndefOrEmpty_eq_not_definedNonEmpty, htok]; rfl
  simp [slackSend, hb, htok, hres]

/-- Dispatch of `slackSend` to the webhook branch. -/
theorem slackSend_webhook (env : Env) (inp : Inputs) (w : World) (p : Option Json) (u : String)
    (hbot : jsUndefOrEmpty env.slackBotToken = true)
    (hurl : env.slackWebhookUrl = some u) (hlen : 0 < u.length)
    (hres : resolvePayload inp w = Except.ok p) :
    slackSend env inp w =
      (match webhookBranch u (selectWebhookType env.slackWebhookType) w p with
       | BranchOut.done acts outs =>
         { actions := resolveActions inp ++ acts,
           outputs := outs ++ [("time", some w.timeString)],
           failed := none }
       | BranchOut.thrown acts msg =>
         { actions := resolveActions inp ++ acts, outputs := [],
           failed := some (FailDetail.errMsg msg) }
       | BranchOut.returned acts d =>
         { actions := resolveActions inp ++ acts, outputs := [], failed := some d }) := by
  have hw : jsUndefOrEmpty (some u) = false := by
    simp [jsUndefOrEmpty]; omega
  have hb' : definedNonEmpty env.slackBotToken = false := by
    have := jsUndefOrEmpty_eq_not_definedNonEmpty env.slackBotToken
    rw [hbot] at this
    cases h : definedNonEmpty env.slackBotToken <;> simp [h] at this ⊢
  simp [slackSend, hbot, hw, hb', hurl, hlen, hres]

/-- Dispatch of `slackSend` when payload resolution throws. -/
theorem slackSend_resolveError (env : Env) (inp : Inputs) (w : World) (e : String)
    (hcred : (jsUndefOrEmpty env.slackBotToken && jsUndefOrEmpty env.slackWebhookUrl) = false)
    (hres : resolvePayload inp w = Except.error e) :
    slackSend env inp w =
      { actions := resolveActions inp, outputs := [],
        failed := some (FailDetail.errMsg e) } := by
  simp [slackSend, hcred, hres]

/-- With a non-empty channel input and a passing content check, the
token branch always performs exactly the fan-out calls, however the
chat API answers. -/
theorem tokenBranch_acts (inp : Inputs) (w : World) (p : Option Json)
    (hch : ¬(inp.channelId.length ≤ 0))
    (hcontent : inp.slackMessage.length > 0 ∨ jsTruthyOpt p = true) :
    branchActs (tokenBranch inp w p) =
      chatActions inp.updateTs inp.slackMessage p (jsSplitComma inp.channelId) := by
  simp only [tokenBranch, if_neg hch, if_pos hcontent]
  cases hfe : firstChatError w (jsSplitComma inp.channelId).length with
  | some e => simp [branchActs]
  | none =>
    cases hlr : lastChatResponse w (jsSplitComma inp.channelId).length with
    | some wr => cases hok : wr.ok <;> simp [branchActs, hok]
    | none => simp [branchActs]

/-- On the token transport with passing checks, the action trace of
`slackSend` is the payload-resolution file read followed by the chat
fan-out. -/
theorem slackSend_token_actions (env : Env) (inp : Inputs) (w : World) (p : Option Json)
    (htok : definedNonEmpty env.slackBotToken = true)
    (hres : resolvePayload inp w = Except.ok p)
    (hch : ¬(inp.channelId.length ≤ 0))
    (hcontent : inp.slackMessage.length > 0 ∨ jsTruthyOpt p = true) :
    (slackSend env inp w).actions =
      resolveActions inp ++
        chatActions inp.updateTs inp.slackMessage p (jsSplitComma inp.channelId) := by
  rw [slackSend_token env inp w p htok hres]
  have hacts := tokenBranch_acts inp w p hch hcontent
  cases hbr : tokenBranch inp w p with
  | done acts outs => rw [hbr] at hacts; simpa using hacts
  | thrown acts msg => rw [hbr] at hacts; simpa using hacts
  | returned acts d => rw [hbr] at hacts; simpa using hacts

/-! ## Claims -/

/-- C1: when the bot token and the webhook URL are both absent or empty,
`slackSend` fails with the configuration error and performs no file
read, no delivery action and no output at all — in particular nothing
of payload resolution, shaping or delivery happens. -/
theorem c1_missing_credentials_config_error (env : Env) (inp : Inputs) (w : World)
    (h1 : jsUndefOrEmpty env.slackBotToken = true)
    (h2 : jsUndefOrEmpty env.slackWebhookUrl = true) :
    slackSend env inp w =
      { actions := [], outputs := [],
        failed := some (FailDetail.errMsg configurationError) } := by
  simp [slackSend, h1, h2]

/-- C1 witness: both credentials empty strings, with arbitrary inputs. -/
theorem c1_witness :
    jsUndefOrEmpty (some "") = true ∧
    slackSend { slackBotToken := some "", slackWebhookUrl := none, slackWebhookType := none }
      { payload := "", payloadFilePath := "", payloadFilePathParsed := false,
        slackMessage := "hi", channelId := "C1", updateTs := "" }
      { fileRead := fun _ => Except.ok "", renderTemplate := fun s => s,
        parseJSON := fun _ => none, githubPayload := Json.mkObj [],
        chatResult := fun _ => Except.error "net", webhookResult := Except.ok (),
        timeString := "T" } =
      { actions := [], outputs := [],
        failed := some (FailDetail.errMsg configurationError) } :=
  ⟨rfl, c1_missing_credentials_config_error _ _ _ rfl rfl⟩

/-- C6: on the token transport (token present, payload resolution
passing), an empty channel input fails with the empty-channel error
whatever the message text and payload are — no delivery action is
performed and no output is produced, so the check precedes the
empty-content check. -/
theorem c6_empty_channel_error (env : Env) (inp : Inputs) (w : World) (p : Option Json)
    (htok : definedNonEmpty env.slackBotToken = true)
    (hres : resolvePayload inp w = Except.ok p)
    (hch : inp.channelId = "") :
    slackSend env inp w =
      { actions := resolveActions inp, outputs := [],
        failed := some (FailDetail.errMsg emptyChannelError) } := by
  rw [slackSend_token env inp w p htok hres]
  have hbr : tokenBranch inp w p = BranchOut.thrown [] emptyChannelError := by
    simp only [tokenBranch, hch]
    rfl
  rw [hbr]
  simp

/-- C6 witness: empty channel input with non-empty message text. -/
theorem c6_witness :
    definedNonEmpty (some "xoxb-1") = true ∧
    slackSend { slackBotToken := some "xoxb-1", slackWebhookUrl := none, slackWebhookType := none }
      { payload := "", payloadFilePath := "", payloadFilePathParsed := false,
        slackMessage := "hello", channelId := "", updateTs := "" }
      { fileRead := fun _ => Except.ok "", renderTemplate := fun s => s,
        parseJSON := fun _ => none, githubPayload := Json.mkObj [],
        chatResult := fun _ => Except.error "net", webhookResult := Except.ok (),
        timeString := "T" } =
      { actions := [], outputs := [],
        failed := some (FailDetail.errMsg emptyChannelError) } :=
  ⟨rfl, c6_empty_channel_error _ _ _ none rfl rfl rfl⟩

/-- C7: on the token transport with a non-empty channel input, an empty
message text together with an absent resolved payload fails with the
empty-content error, and no delivery action is performed. -/
theorem c7_empty_content_error (env : Env) (inp : Inputs) (w : World)
    (htok : definedNonEmpty env.slackBotToken = true)
    (hres : resolvePayload inp w = Except.ok none)
    (hch : ¬(inp.channelId.length ≤ 0))
    (hmsg : inp.slackMessage = "") :
    slackSend env inp w =
      { actions := resolveActions inp, outputs := [],
        failed := some (FailDetail.errMsg emptyContentError) } := by
  rw [slackSend_token env inp w none htok hres]
  have hnc : ¬(inp.slackMessage.length > 0 ∨ jsTruthyOpt none = true) := by
    rw [hmsg]; decide
  have hbr : tokenBranch inp w none = BranchOut.thrown [] emptyContentError := by
    simp only [tokenBranch]
    rw [if_neg hch, if_neg hnc]
  rw [hbr]
  simp

/-- C7 witness: non-empty channel, empty message, no payload. -/
theorem c7_witness :
    ¬(("C1" : String).length ≤ 0) ∧
    slackSend { slackBotToken := some "xoxb-1", slackWebhookUrl := none, slackWebhookType := none }
      { payload := "", payloadFilePath := "", payloadFilePathParsed := false,
        slackMessage := "", channelId := "C1", updateTs := "" }
      { fileRead := fun _ => Except.ok "", renderTemplate := fun s => s,
        parseJSON := fun _ => none, githubPayload := Json.mkObj [],
        chatResult := fun _ => Except.error "net", webhookResult := Except.ok (),
        timeString := "T" } =
      { actions := [], outputs := [],
        failed := some (FailDetail.errMsg emptyContentError) } :=
  ⟨by decide, c7_empty_content_error _ _ _ rfl rfl (by decide) rfl⟩

/-- C5: on the token transport, when the channel check and the content
check pass, `slackSend` performs exactly one chat call per
comma-separated entry of the channel input, in input order: an update
call when the `update-ts` input is non-empty and a post call otherwise,
each carrying the request object that merges the trimmed channel
identifier, the message text (and, for updates, the timestamp) with the
resolved payload's fields spread at the top level (`updateReq` /
`postReq`). -/
theorem c5_token_fanout (env : Env) (inp : Inputs) (w : World) (p : Option Json)
    (htok : definedNonEmpty env.slackBotToken = true)
    (hres : resolvePayload inp w = Except.ok p)
    (hch : ¬(inp.channelId.length ≤ 0))
    (hcontent : inp.slackMessage.length > 0 ∨ jsTruthyOpt p = true) :
    (slackSend env inp w).actions =
      resolveActions inp ++
        (jsSplitComma inp.channelId).map (fun ch =>
          if inp.updateTs ≠ "" then
            Action.chatUpdate (updateReq inp.updateTs ch inp.slackMessage p)
          else
            Action.chatPost (postReq ch inp.slackMessage p)) := by
  rw [slackSend_token_actions env inp w p htok hres hch hcontent]
  rfl

/-- C5 witness: inline payload `text: hi`, channels `C1,C2`, no
update-ts — two post calls, each carrying `text: hi` from the spread
payload. -/
theorem c5_witness :
    definedNonEmpty (some "xoxb-1") = true ∧
    resolvePayload
      { payload := "x", payloadFilePath := "", payloadFilePathParsed := false,
        slackMessage := "", channelId := "C1,C2", updateTs := "" }
      { fileRead := fun _ => Except.ok "", renderTemplate := fun s => s,
        parseJSON := fun _ => some (Json.mkObj [("text", Json.str "hi")]),
        githubPayload := Json.mkObj [],
        chatResult := fun _ => Except.ok { ok := true, ts := some "5", thread_ts := none, channel := some "C" },
        webhookResult := Except.ok (), timeString := "T" } =
      Except.ok (some (Json.mkObj [("text", Json.str "hi")])) ∧
    (slackSend { slackBotToken := some "xoxb-1", slackWebhookUrl := none, slackWebhookType := none }
      { payload := "x", payloadFilePath := "", payloadFilePathParsed := false,
        slackMessage := "", channelId := "C1,C2", updateTs := "" }
      { fileRead := fun _ => Except.ok "", renderTemplate := fun s => s,
        parseJSON := fun _ => some (Json.mkObj [("text", Json.str "hi")]),
        githubPayload := Json.mkObj [],
        chatResult := fun _ => Except.ok { ok := true, ts := some "5", thread_ts := none, channel := some "C" },
        webhookResult := Except.ok (), timeString := "T" }).actions =
      [Action.chatPost (Json.mkObj [("channel", Json.str "C1"), ("text", Json.str "hi")]),
       Action.chatPost (Json.mkObj [("channel", Json.str "C2"), ("text", Json.str "hi")])] :=
  ⟨rfl, rfl,
    c5_token_fanout
      { slackBotToken := some "xoxb-1", slackWebhookUrl := none, slackWebhookType := none }
      { payload := "x", payloadFilePath := "", payloadFilePathParsed := false,
        slackMessage := "", channelId := "C1,C2", updateTs := "" }
      { fileRead := fun _ => Except.ok "", renderTemplate := fun s => s,
        parseJSON := fun _ => some (Json.mkObj [("text", Json.str "hi")]),
        githubPayload := Json.mkObj [],
        chatResult := fun _ => Except.ok { ok := true, ts := some "5", thread_ts := none, channel := some "C" },
        webhookResult := Except.ok (), timeString := "T" }
      (some (Json.mkObj [("text", Json.str "hi")])) rfl rfl (by decide) (Or.inr rfl)⟩

/-- C9: on the token transport, when every chat call resolves but the
last-recorded response has `ok` false (or none was recorded), none of
the message outputs `ts`/`thread_ts`/`channel_id` is emitted, yet the
completion-time output is still emitted and the invocation is not
marked failed. -/
theorem c9_not_ok_response_outputs (env : Env) (inp : Inputs) (w : World) (p : Option Json)
    (htok : definedNonEmpty env.slackBotToken = true)
    (hres : resolvePayload inp w = Except.ok p)
    (hch : ¬(inp.channelId.length ≤ 0))
    (hcontent : inp.slackMessage.length > 0 ∨ jsTruthyOpt p = true)
    (hall : firstChatError w (jsSplitComma inp.channelId).length = none)
    (hbad : ∀ wr, lastChatResponse w (jsSplitComma inp.channelId).length = some wr →
      wr.ok = false) :
    (slackSend env inp w).outputs = [("time", some w.timeString)] ∧
    (slackSend env inp w).failed = none := by
  rw [slackSend_token env inp w p htok hres]
  have hbr : tokenBranch inp w p =
      BranchOut.done (chatActions inp.updateTs inp.slackMessage p (jsSplitComma inp.channelId)) [] := by
    simp only [tokenBranch, if_neg hch, if_pos hcontent, hall]
    cases hlr : lastChatResponse w (jsSplitComma inp.channelId).length with
    | none => simp
    | some wr => simp [hbad wr hlr]
  rw [hbr]
  exact ⟨rfl, rfl⟩

/-- C9 witness: one channel, the chat call resolves with `ok: false`. -/
theorem c9_witness :
    (slackSend { slackBotToken := some "xoxb-1", slackWebhookUrl := none, slackWebhookType := none }
      { payload := "", payloadFilePath := "", payloadFilePathParsed := false,
        slackMessage := "hello", channelId := "C1", updateTs := "" }
      { fileRead := fun _ => Except.ok "", renderTemplate := fun s => s,
        parseJSON := fun _ => none, githubPayload := Json.mkObj [],
        chatResult := fun _ => Except.ok { ok := false, ts := some "5", thread_ts := none, channel := some "C" },
        webhookResult := Except.ok (), timeString := "T" }).outputs =
      [("time", some "T")] ∧
    (slackSend { slackBotToken := some "xoxb-1", slackWebhookUrl := none, slackWebhookType := none }
      { payload := "", payloadFilePath := "", payloadFilePathParsed := false,
        slackMessage := "hello", channelId := "C1", updateTs := "" }
      { fileRead := fun _ => Except.ok "", renderTemplate := fun s => s,
        parseJSON := fun _ => none, githubPayload := Json.mkObj [],
        chatResult := fun _ => Except.ok { ok := false, ts := some "5", thread_ts := none, channel := some "C" },
        webhookResult := Except.ok (), timeString := "T" }).failed = none :=
  c9_not_ok_response_outputs _ _ _ none rfl rfl (by decide) (Or.inl (by decide)) rfl
    (fun wr hwr => by cases hwr; rfl)

/-- Converting a field list to a `JsonObj` and back is the identity. -/
theorem JsonObj.toList_ofList (l : List (String × Json)) : (JsonObj.ofList l).toList = l := by
  induction l with
  | nil => rfl
  | cons kv t ih => cases kv; simp [JsonObj.ofList, JsonObj.toList, ih]

/-- C2: the WORKFLOW_TRIGGER shaping always produces an object whose
values are all strings, keyed by dot-joined paths; on the nested object
`a: (b: 1, c: [2, 3])` it produces exactly `a.b: "1"`, `a.c.0: "2"`,
`a.c.1: "3"`. -/
theorem c2_workflow_shape_strings (p : Json) (kv : String × Json)
    (hmem : kv ∈ objFields (workflowShape p)) :
    (∃ s, kv.2 = Json.str s) ∧
    workflowShape
        (Json.mkObj [("a", Json.mkObj [("b", Json.num 1),
          ("c", Json.mkArr [Json.num 2, Json.num 3])])]) =
      Json.mkObj [("a.b", Json.str "1"), ("a.c.0", Json.str "2"), ("a.c.1", Json.str "3")] := by
  constructor
  · simp only [workflowShape, Json.mkObj, objFields] at hmem
    rw [JsonObj.toList_ofList] at hmem
    obtain ⟨a, _, rfl⟩ := List.mem_map.mp hmem
    exact ⟨_, rfl⟩
  · rfl

/-- C2 witness: the field `a.b` of the shaped example payload is a
string. -/
theorem c2_witness :
    (∃ s, (("a.b", Json.str "1") : String × Json).2 = Json.str s) ∧
    workflowShape
        (Json.mkObj [("a", Json.mkObj [("b", Json.num 1),
          ("c", Json.mkArr [Json.num 2, Json.num 3])])]) =
      Json.mkObj [("a.b", Json.str "1"), ("a.c.0", Json.str "2"), ("a.c.1", Json.str "3")] :=
  c2_workflow_shape_strings
    (Json.mkObj [("a", Json.mkObj [("b", Json.num 1),
      ("c", Json.mkArr [Json.num 2, Json.num 3])])])
    ("a.b", Json.str "1") (List.mem_cons_self _ _)

/-- C3: when the webhook POST fails, the reported failure detail is the
structured response body when one is attached and the failure's message
text otherwise, and the invocation ends with no output at all — in
particular no completion-time output. -/
theorem c3_webhook_failure_detail (env : Env) (inp : Inputs) (w : World) (p : Option Json)
    (u : String) (err : AxiosError)
    (hbot : jsUndefOrEmpty env.slackBotToken = true)
    (hurl : env.slackWebhookUrl = some u) (hlen : 0 < u.length)
    (hres : resolvePayload inp w = Except.ok p)
    (hfail : w.webhookResult = Except.error err) :
    (slackSend env inp w).failed =
      some (match err.response with
            | some resp => FailDetail.respBody resp.data
            | none => FailDetail.errMsg err.message) ∧
    (slackSend env inp w).outputs = [] := by
  rw [slackSend_webhook env inp w p u hbot hurl hlen hres]
  simp [webhookBranch, hfail]

/-- C3 witness: a POST failure carrying a structured body — the body,
not the message, is reported, and no output is produced. -/
theorem c3_witness :
    (slackSend { slackBotToken := none, slackWebhookUrl := some "https://hooks.slack.com/x", slackWebhookType := none }
      { payload := "", payloadFilePath := "", payloadFilePathParsed := false,
        slackMessage := "", channelId := "", updateTs := "" }
      { fileRead := fun _ => Except.ok "", renderTemplate := fun s => s,
        parseJSON := fun _ => none, githubPayload := Json.mkObj [("ref", Json.str "main")],
        chatResult := fun _ => Except.error "net",
        webhookResult := Except.error
          { response := some { data := Json.str "invalid_payload" }, message := "Request failed with status code 400" },
        timeString := "T" }).failed = some (FailDetail.respBody (Json.str "invalid_payload")) ∧
    (slackSend { slackBotToken := none, slackWebhookUrl := some "https://hooks.slack.com/x", slackWebhookType := none }
      { payload := "", payloadFilePath := "", payloadFilePathParsed := false,
        slackMessage := "", channelId := "", updateTs := "" }
      { fileRead := fun _ => Except.ok "", renderTemplate := fun s => s,
        parseJSON := fun _ => none, githubPayload := Json.mkObj [("ref", Json.str "main")],
        chatResult := fun _ => Except.error "net",
        webhookResult := Except.error
          { response := some { data := Json.str "invalid_payload" }, message := "Request failed with status code 400" },
        timeString := "T" }).outputs = [] :=
  c3_webhook_failure_detail _ _ _ none "https://hooks.slack.com/x"
    { response := some { data := Json.str "invalid_payload" }, message := "Request failed with status code 400" }
    rfl rfl (by decide) rfl rfl

/-- Fixture for C4: a template file whose substituted text is empty. -/
def wEmptyRender : World :=
  { fileRead := fun _ => Except.ok "$\x7b\x7b github.ref \x7d\x7d"
    renderTemplate := fun _ => ""
    parseJSON := fun _ => none
    githubPayload := Json.mkObj [("ref", Json.str "main")]
    chatResult := fun _ => Except.ok { ok := true, ts := some "5", thread_ts := none, channel := some "C" }
    webhookResult := Except.ok ()
    timeString := "T" }

/-- Fixture for C4: substitution-flagged template-file payload, token
transport, no message text. -/
def inpTemplate : Inputs :=
  { payload := ""
    payloadFilePath := "payload.json"
    payloadFilePathParsed := true
    slackMessage := ""
    channelId := "C1"
    updateTs := "" }

/-- Fixture: a token-transport environment. -/
def envToken : Env :=
  { slackBotToken := some "xoxb-1", slackWebhookUrl := none, slackWebhookType := none }

/-- C4 counterexample: a substitution-flagged template file whose text
after substitution is empty — not valid JSON (this world's parser
rejects every string, the empty one included) — yet the invocation does
not fail with the invalid-JSON error: the empty text is treated as no
payload at all, and the failure here is the empty-content error. -/
theorem c4_cex_empty_substituted_text :
    wEmptyRender.parseJSON
        (wEmptyRender.renderTemplate
          (jsReplaceMarkers "$\x7b\x7b github.ref \x7d\x7d")) = none ∧
    (slackSend envToken inpTemplate wEmptyRender).actions = [Action.fileRead "payload.json"] ∧
    (slackSend envToken inpTemplate wEmptyRender).failed =
      some (FailDetail.errMsg emptyContentError) :=
  ⟨rfl, rfl, rfl⟩

/-- C4 (amended): for a substitution-flagged template-file payload, the
marker rewrite and the template rendering happen before JSON parsing,
and when the substituted text is non-empty and not valid JSON the
invocation fails with the invalid-JSON error — not with the file error
naming the path. (The amendment: an empty substituted text is instead
treated as no payload and never parsed.) -/
theorem c4_template_invalid_json (env : Env) (inp : Inputs) (w : World) (content : String)
    (hcred : (jsUndefOrEmpty env.slackBotToken && jsUndefOrEmpty env.slackWebhookUrl) = false)
    (hpay : inp.payload = "") (hpath : inp.payloadFilePath ≠ "")
    (hflag : inp.payloadFilePathParsed = true)
    (hread : w.fileRead inp.payloadFilePath = Except.ok content)
    (hne : w.renderTemplate (jsReplaceMarkers content) ≠ "")
    (hparse : w.parseJSON (w.renderTemplate (jsReplaceMarkers content)) = none) :
    (slackSend env inp w).failed = some (FailDetail.errMsg invalidPayloadError) ∧
    (slackSend env inp w).failed ≠
      some (FailDetail.errMsg (payloadFileError inp.payloadFilePath)) := by
  have hres : resolvePayload inp w = Except.error invalidPayloadError := by
    simp [resolvePayload, getFileText, hpay, hpath, hflag, hread, hne, hparse]
  rw [slackSend_resolveError env inp w invalidPayloadError hcred hres]
  refine ⟨rfl, fun hcontra => ?_⟩
  have hmsg : invalidPayloadError = payloadFileError inp.payloadFilePath := by
    injection hcontra with h1
    injection h1
  have hlen := congrArg String.length hmsg
  rw [payloadFileError, String.length_append] at hlen
  have h34 : invalidPayloadError.length = 34 := rfl
  have h65 : ("The payload-file-path may be incorrect. Failed to load the file: ").length = 65 := rfl
  omega

/-- C4 witness for the amended claim: a template file rendering to a
non-empty non-JSON text fails with the invalid-JSON error. -/
theorem c4_witness :
    (slackSend envToken inpTemplate
      { wEmptyRender with renderTemplate := fun _ => "not json" }).failed =
      some (FailDetail.errMsg invalidPayloadError) ∧
    (slackSend envToken inpTemplate
      { wEmptyRender with renderTemplate := fun _ => "not json" }).failed ≠
      some (FailDetail.errMsg (payloadFileError inpTemplate.payloadFilePath)) :=
  c4_template_invalid_json envToken inpTemplate
    { wEmptyRender with renderTemplate := fun _ => "not json" }
    "$\x7b\x7b github.ref \x7d\x7d"
    rfl rfl (by decide) rfl rfl (by decide) rfl

/-- Fixture: empty inputs (every `core.getInput` unset). -/
def inpEmpty : Inputs :=
  { payload := ""
    payloadFilePath := ""
    payloadFilePathParsed := false
    slackMessage := ""
    channelId := ""
    updateTs := "" }

/-- Fixture: a world whose webhook POST succeeds. -/
def wHookOk : World :=
  { fileRead := fun _ => Except.ok ""
    renderTemplate := fun s => s
    parseJSON := fun _ => none
    githubPayload := Json.mkObj [("ref", Json.str "main")]
    chatResult := fun _ => Except.error "net"
    webhookResult := Except.ok ()
    timeString := "T" }

/-- C8 counterexample: with the override `garbage` the selected webhook
type is `GARBAGE`, which is neither of the two enumerated variants —
the selection does not map every override into the enumeration (and
such a value is simply not flattened, as the amended theorem shows). -/
theorem c8_cex_unrecognized_kind :
    ¬(selectWebhookType (some "garbage") = SLACK_WEBHOOK_TYPES.WORKFLOW_TRIGGER ∨
      selectWebhookType (some "garbage") = SLACK_WEBHOOK_TYPES.INCOMING_WEBHOOK) := by
  decide

/-- C8 (amended): the selected webhook type defaults to
WORKFLOW_TRIGGER when no override is set, is the uppercased override
otherwise (so recognition of the two variants is case-insensitive, but
unrecognized overrides pass through and behave like INCOMING_WEBHOOK),
and on the webhook transport the flattening shaping is applied to the
POSTed body exactly when the selected type equals WORKFLOW_TRIGGER. -/
theorem c8_webhook_kind_selection (env : Env) (inp : Inputs) (w : World) (p : Option Json)
    (u : String)
    (hbot : jsUndefOrEmpty env.slackBotToken = true)
    (hurl : env.slackWebhookUrl = some u) (hlen : 0 < u.length)
    (hres : resolvePayload inp w = Except.ok p) :
    selectWebhookType none = SLACK_WEBHOOK_TYPES.WORKFLOW_TRIGGER ∧
    (∀ s, s ≠ "" → selectWebhookType (some s) = jsToUpperCase s) ∧
    (slackSend env inp w).actions =
      resolveActions inp ++
        [Action.webhookPost u
          (if selectWebhookType env.slackWebhookType = SLACK_WEBHOOK_TYPES.WORKFLOW_TRIGGER then
            workflowShape (effectiveWebhookPayload p w)
          else effectiveWebhookPayload p w)] := by
  refine ⟨rfl, fun s hs => by simp [selectWebhookType, hs], ?_⟩
  rw [slackSend_webhook env inp w p u hbot hurl hlen hres]
  cases hw : w.webhookResult with
  | ok un => simp [webhookBranch, hw]
  | error err => simp [webhookBranch, hw]

/-- C8 witness: override `incoming_webhook` (case-insensitive match of
the non-flattening variant) with the default event payload. -/
theorem c8_witness :
    selectWebhookType none = SLACK_WEBHOOK_TYPES.WORKFLOW_TRIGGER ∧
    (∀ s, s ≠ "" → selectWebhookType (some s) = jsToUpperCase s) ∧
    (slackSend
      { slackBotToken := none, slackWebhookUrl := some "https://hooks.example/x",
        slackWebhookType := some "incoming_webhook" } inpEmpty wHookOk).actions =
      resolveActions inpEmpty ++
        [Action.webhookPost "https://hooks.example/x"
          (if selectWebhookType (some "incoming_webhook") = SLACK_WEBHOOK_TYPES.WORKFLOW_TRIGGER then
            workflowShape (effectiveWebhookPayload none wHookOk)
          else effectiveWebhookPayload none wHookOk)] :=
  c8_webhook_kind_selection
    { slackBotToken := none, slackWebhookUrl := some "https://hooks.example/x",
      slackWebhookType := some "incoming_webhook" }
    inpEmpty wHookOk none "https://hooks.example/x" rfl rfl (by decide) rfl

/-- C10 counterexample: the channel input `","` consists of two
comma-separated segments, the empty-channel check passes (it looks at
the raw string's length), yet with empty message text and no payload
no delivery operation at all is issued — the invocation fails with the
empty-content error instead, contradicting the claim's "one delivery
operation is issued per comma-separated segment". -/
theorem c10_cex_content_check :
    (jsSplitComma ",").length = 2 ∧
    (slackSend envToken
      { payload := "", payloadFilePath := "", payloadFilePathParsed := false,
        slackMessage := "", channelId := ",", updateTs := "" } wHookOk).actions = [] ∧
    (slackSend envToken
      { payload := "", payloadFilePath := "", payloadFilePathParsed := false,
        slackMessage := "", channelId := ",", updateTs := "" } wHookOk).failed =
      some (FailDetail.errMsg emptyContentError) :=
  ⟨rfl, rfl, rfl⟩

/-- C10 (amended): the empty-channel check looks at the raw channel-id
input string, not the derived list: for a non-empty input whose
comma-separated segments all trim to the empty string, provided the
content check passes, the empty-channel error is not raised and one
delivery operation is issued per segment, each carrying an empty
(after trimming) channel identifier. -/
theorem c10_whitespace_channels_fanout (env : Env) (inp : Inputs) (w : World) (p : Option Json)
    (htok : definedNonEmpty env.slackBotToken = true)
    (hres : resolvePayload inp w = Except.ok p)
    (hch : ¬(inp.channelId.length ≤ 0))
    (hsegs : ∀ seg ∈ jsSplitComma inp.channelId, jsTrim seg = "")
    (hcontent : inp.slackMessage.length > 0 ∨ jsTruthyOpt p = true) :
    (slackSend env inp w).actions =
      resolveActions inp ++
        (jsSplitComma inp.channelId).map (fun _ =>
          if inp.updateTs ≠ "" then
            Action.chatUpdate (Json.mkObj (objLit ([("ts", Json.str inp.updateTs),
              ("channel", Json.str ""), ("text", Json.str inp.slackMessage)] ++ spreadOf p)))
          else
            Action.chatPost (Json.mkObj (objLit ([("channel", Json.str ""),
              ("text", Json.str inp.slackMessage)] ++ spreadOf p)))) := by
  rw [slackSend_token_actions env inp w p htok hres hch hcontent]
  congr 1
  apply List.map_congr_left
  intro seg hseg
  by_cases hts : inp.updateTs ≠ "" <;>
    simp [hts, updateReq, postReq, hsegs seg hseg]

/-- C10 witness: channel input `","` with message text present — two
post operations, each with an empty channel identifier. -/
theorem c10_witness :
    (slackSend envToken
      { payload := "", payloadFilePath := "", payloadFilePathParsed := false,
        slackMessage := "hi", channelId := ",", updateTs := "" } wHookOk).actions =
      resolveActions
        { payload := "", payloadFilePath := "", payloadFilePathParsed := false,
          slackMessage := "hi", channelId := ",", updateTs := "" } ++
        (jsSplitComma ",").map (fun _ =>
          Action.chatPost (Json.mkObj (objLit ([("channel", Json.str ""),
            ("text", Json.str "hi")] ++ spreadOf none)))) := by
  have h := c10_whitespace_channels_fanout envToken
    { payload := "", payloadFilePath := "", payloadFilePathParsed := false,
      slackMessage := "hi", channelId := ",", updateTs := "" } wHookOk none
    rfl rfl (by decide) (by decide) (Or.inl (by decide))
  simpa using h

end SlackAction
